import Mathlib

set_option maxRecDepth 40000

/-!
Verification of the update dispatch and response-selection engine of the
simple Telegram example bot (`example_bots/simple_telegram_bot/bot.py`).

The Python source is shallowly embedded: each handler becomes a pure Lean
function from its inputs to an `OutboundResponse`; Python's `in` substring
test and `str.lower()` become executable Lean functions over `List Char`;
the handler registrations of `main` become an association list.
-/

/-- Python `needle in haystack` on lists of characters: `isPrefixB pat s`
is true when `pat` is a prefix of `s`. -/
def isPrefixB : List Char → List Char → Bool
  | [], _ => true
  | _ :: _, [] => false
  | a :: as, b :: bs => a == b && isPrefixB as bs

/-- True when `pat` occurs as a contiguous run inside `s`. -/
def containsList (pat : List Char) : List Char → Bool
  | [] => isPrefixB pat []
  | c :: rest => isPrefixB pat (c :: rest) || containsList pat rest

/-- Python's `needle in haystack` for strings (substring containment). -/
def strContains (haystack needle : String) : Bool :=
  containsList needle.toList haystack.toList

/-- ASCII lowercasing of one character, as Python `str.lower()` acts on the
ASCII letters appearing in the bot's rule keywords. -/
def lowerChar (c : Char) : Char :=
  if 65 ≤ c.toNat && c.toNat ≤ 90 then Char.ofNat (c.toNat + 32) else c

/-- Python `s.lower()` restricted to ASCII case mapping. -/
def pyLower (s : String) : String :=
  String.mk (s.toList.map lowerChar)

/-- `parse_mode` of a reply: `markdown` when the handler passes
`parse_mode='Markdown'`, `plain` otherwise. -/
inductive FormatHint
  | plain
  | markdown
  deriving DecidableEq, Repr

/-- The reply produced by one handler invocation: the text passed to
`update.message.reply_text` and its parse mode. -/
structure OutboundResponse where
  body : String
  format : FormatHint
  deriving DecidableEq, Repr

/-- An inbound update as the dispatch layer sees it: sender identity and
display name, the raw message text, and the parsed command shape. -/
structure InboundEvent where
  sender_id : Nat
  sender_display_name : String
  raw_text : String
  is_command : Bool
  command_name : Option String
  command_args : List String
  deriving DecidableEq, Repr

/-- `start_command` (bot.py lines 29-40): greets the user by first name and
lists the other commands. -/
def start_command (firstName : String) : OutboundResponse :=
  { body :=
      "👋 Hello " ++ firstName ++ "!\n\n" ++
      "I\x27m a simple example bot running on TELEBOT HOSTER! 🤖\n\n" ++
      "Try these commands:\n" ++
      "/help - Show available commands\n" ++
      "/about - Learn about this bot\n" ++
      "/echo <message> - Echo your message back\n\n" ++
      "Or just send me any message and I\x27ll respond!"
    format := .plain }

/-- `help_command` (bot.py lines 42-52): enumerates all commands, sent with
`parse_mode='Markdown'`. -/
def help_command : OutboundResponse :=
  { body :=
      "📖 *Available Commands:*\n\n" ++
      "/start - Start the bot\n" ++
      "/help - Show this help message\n" ++
      "/about - Learn about this bot\n" ++
      "/echo <text> - Echo your message\n\n" ++
      "You can also just send me any text message!"
    format := .markdown }

/-- `about_command` (bot.py lines 54-64): static description, Markdown. -/
def about_command : OutboundResponse :=
  { body :=
      "ℹ️ *About This Bot*\n\n" ++
      "This is a simple example Telegram bot hosted on TELEBOT HOSTER.\n\n" ++
      "🌐 Platform: TELEBOT HOSTER\n" ++
      "💻 Language: Python\n" ++
      "📚 Library: python-telegram-bot\n\n" ++
      "You can deploy your own bots just like this one!"
    format := .markdown }

/-- `echo_command` (bot.py lines 66-72): `if context.args:` join them with
one space behind the echo indicator, else reply with the usage hint
(an empty `context.args` list is falsy in Python). -/
def echo_command (args : List String) : OutboundResponse :=
  if args.isEmpty then
    { body := "Please provide a message to echo!\n\nExample: /echo Hello World"
      format := .plain }
  else
    { body := "🔄 You said: " ++ String.intercalate " " args
      format := .plain }

/-- `handle_message` (bot.py lines 74-90): the text classifier, an if/elif
chain over `user_message.lower()`, falling through to the echo-back default. -/
def handle_message (user_message user_name : String) : OutboundResponse :=
  if strContains (pyLower user_message) "hello" ||
      strContains (pyLower user_message) "hi" then
    { body := "Hello " ++ user_name ++ "! 👋 How can I help you today?"
      format := .plain }
  else if strContains (pyLower user_message) "how are you" then
    { body := "I\x27m doing great! Thanks for asking! 😊", format := .plain }
  else if strContains (pyLower user_message) "bye" then
    { body := "Goodbye! Come back soon! 👋", format := .plain }
  else
    { body := "You said: " ++ user_message ++
        "\n\nTry using /help to see what I can do!"
      format := .plain }

/-- The command registrations performed by `main` (bot.py lines 104-107),
in registration order, each paired with the handler adapted to the event
fields it reads. -/
def commandHandlers : List (String × (InboundEvent → OutboundResponse)) :=
  [("start", fun e => start_command e.sender_display_name),
   ("help", fun _ => help_command),
   ("about", fun _ => about_command),
   ("echo", fun e => echo_command e.command_args)]

/-- The registered command names, in registration order. -/
def registeredCommands : List String := commandHandlers.map (·.1)

/-- Modelled from the spec: the Router. The name-keyed handler dispatch of
`python-telegram-bot`'s `Application` is library code absent from the
repository; per the spec, a command event is matched case-sensitively
against the registered command names (dropped silently on a miss), and a
non-command text event goes to the Text Classifier (`handle_message`,
registered via `MessageHandler(filters.TEXT & ~filters.COMMAND, ...)`
at bot.py line 110). -/
def dispatch (e : InboundEvent) : Option OutboundResponse :=
  if e.is_command then
    match e.command_name with
    | some n =>
      match commandHandlers.find? (fun p => p.1 == n) with
      | some p => some (p.2 e)
      | none => none
    | none => none
  else
    some (handle_message e.raw_text e.sender_display_name)

/-- The two states of the Dispatch Loop's per-event state machine. -/
inductive LoopState
  | Idle
  | Processing
  deriving DecidableEq, Repr

/-- Modelled from the spec: one full cycle of the Dispatch Loop. The loop
itself (`Application.run_polling` with the `error_handler` registered via
`add_error_handler`, bot.py lines 113 and 117) is library code absent from
the repository; per the spec a handler failure (modelled as `Except.error`)
is caught at the loop boundary, recorded, and the loop returns to `Idle`.
The cycle yields the state the loop is left in, the response sent (if any)
and the failure recorded (if any). -/
def runCycle (e : InboundEvent)
    (runHandler : InboundEvent → Except String OutboundResponse) :
    LoopState × Option OutboundResponse × Option String :=
  if e.is_command then
    match e.command_name with
    | some n =>
      match commandHandlers.find? (fun p => p.1 == n) with
      | some _ =>
        match runHandler e with
        | .ok r => (.Idle, some r, none)
        | .error msg => (.Idle, none, some msg)
      | none => (.Idle, none, none)
    | none => (.Idle, none, none)
  else
    match runHandler e with
    | .ok r => (.Idle, some r, none)
    | .error msg => (.Idle, none, some msg)

/-- Outcome of the startup credential check. -/
inductive StartupResult
  | exited (code : Nat)
  | running
  deriving DecidableEq, Repr

/-- The startup token check (bot.py lines 21-26): `BOT_TOKEN` is read from
the environment; `if not BOT_TOKEN:` is true when the variable is unset
(`None`) or empty, and the process does `sys.exit(1)` before the dispatch
loop is ever built. -/
def checkBotToken (token : Option String) : StartupResult :=
  match token with
  | none => .exited 1
  | some s => if s = "" then .exited 1 else .running

/-- Whether the Dispatch Loop starts for a given environment token value:
`main` (and with it `run_polling`) is only reached when the startup check
did not exit. -/
def dispatchLoopStarts (token : Option String) : Bool :=
  match checkBotToken token with
  | .running => true
  | .exited _ => false

/-- Rule 1 predicate: the text contains "hello" or "hi". -/
def rule1Pred (t : String) : Bool :=
  strContains t "hello" || strContains t "hi"

/-- Rule 1 template: greet the sender by display name. -/
def rule1Resp (user_name _original : String) : String :=
  "Hello " ++ user_name ++ "! 👋 How can I help you today?"

/-- Rule 2 predicate: the text contains "how are you". -/
def rule2Pred (t : String) : Bool := strContains t "how are you"

/-- Rule 2 template: canned well-being response. -/
def rule2Resp (_user_name _original : String) : String :=
  "I\x27m doing great! Thanks for asking! 😊"

/-- Rule 3 predicate: the text contains "bye". -/
def rule3Pred (t : String) : Bool := strContains t "bye"

/-- Rule 3 template: canned farewell. -/
def rule3Resp (_user_name _original : String) : String :=
  "Goodbye! Come back soon! 👋"

/-- Default rule predicate: always true. -/
def defaultPred (_t : String) : Bool := true

/-- Default rule template: echo the original (non-lowercased) text plus a
hint to try /help. -/
def defaultResp (_user_name original : String) : String :=
  "You said: " ++ original ++ "\n\nTry using /help to see what I can do!"

/-- The Text Classifier of the spec's data model: the if/elif chain of
`handle_message` viewed as an ordered rule list. Each rule pairs a
predicate on the lowercased text with a response template over the
sender's display name and the original text; the catch-all sits last. -/
def classifierRules : List ((String → Bool) × (String → String → String)) :=
  [(rule1Pred, rule1Resp), (rule2Pred, rule2Resp),
   (rule3Pred, rule3Resp), (defaultPred, defaultResp)]

/-- The classifier's reply as a function of the whole inbound event: it
reads only `raw_text` and `sender_display_name`. -/
def classifyEvent (e : InboundEvent) : OutboundResponse :=
  handle_message e.raw_text e.sender_display_name

theorem isPrefixB_append (pat l1 l2 : List Char) (h : isPrefixB pat l1 = true) :
    isPrefixB pat (l1 ++ l2) = true := by
  induction pat generalizing l1 with
  | nil => simp [isPrefixB]
  | cons a as ih =>
    cases l1 with
    | nil => simp [isPrefixB] at h
    | cons b bs =>
      simp only [isPrefixB, Bool.and_eq_true] at h
      simp only [List.cons_append, isPrefixB, Bool.and_eq_true]
      exact ⟨h.1, ih bs h.2⟩

theorem containsList_append_right (pat l1 l2 : List Char)
    (h : containsList pat l2 = true) : containsList pat (l1 ++ l2) = true := by
  induction l1 with
  | nil => simpa using h
  | cons c cs ih =>
    simp only [List.cons_append, containsList, Bool.or_eq_true]
    exact Or.inr ih

theorem containsList_append_left (pat l1 l2 : List Char)
    (h : containsList pat l1 = true) : containsList pat (l1 ++ l2) = true := by
  induction l1 with
  | nil =>
    cases pat with
    | nil =>
      cases l2 with
      | nil => simp [containsList, isPrefixB]
      | cons c rest => simp [containsList, isPrefixB]
    | cons a as => simp [containsList, isPrefixB] at h
  | cons c cs ih =>
    simp only [containsList, Bool.or_eq_true] at h
    simp only [List.cons_append, containsList, Bool.or_eq_true]
    rcases h with h | h
    · exact Or.inl (isPrefixB_append _ _ _ h)
    · exact Or.inr (ih h)

theorem strContains_append_right (a b pat : String)
    (h : strContains b pat = true) : strContains (a ++ b) pat = true := by
  unfold strContains at *
  unfold String.toList at *
  rw [String.data_append]
  exact containsList_append_right _ _ _ h

theorem strContains_append_left (a b pat : String)
    (h : strContains a pat = true) : strContains (a ++ b) pat = true := by
  unfold strContains at *
  unfold String.toList at *
  rw [String.data_append]
  exact containsList_append_left _ _ _ h

/-- C1 counterexample: "start" is a registered command, yet the body the
`start` handler produces (here for the user "Alice") does not contain the
string "start" anywhere — it only lists /help, /about and /echo. -/
theorem start_body_omits_start :
    "start" ∈ registeredCommands ∧
    strContains (start_command "Alice").body "start" = false := by
  constructor
  · decide
  · decide

/-- C1 (amended): the `help` handler's body mentions every registered
command name; the `start` handler's body mentions every registered command
name except "start" itself, for every sender display name. -/
theorem help_mentions_all_start_mentions_rest (firstName c : String)
    (hc : c ∈ registeredCommands) :
    strContains help_command.body c = true ∧
    (c ≠ "start" → strContains (start_command firstName).body c = true) := by
  simp only [registeredCommands, commandHandlers, List.map_cons, List.map_nil,
    List.mem_cons, List.not_mem_nil, or_false] at hc
  rcases hc with rfl | rfl | rfl | rfl
  · exact ⟨by decide, fun h => absurd rfl h⟩
  · refine ⟨by decide, fun _ => ?_⟩
    unfold start_command
    apply strContains_append_left
    apply strContains_append_left
    apply strContains_append_left
    apply strContains_append_right
    decide
  · refine ⟨by decide, fun _ => ?_⟩
    unfold start_command
    apply strContains_append_left
    apply strContains_append_left
    apply strContains_append_right
    decide
  · refine ⟨by decide, fun _ => ?_⟩
    unfold start_command
    apply strContains_append_left
    apply strContains_append_right
    decide

theorem help_mentions_all_start_mentions_rest_witness :
    ("echo" ∈ registeredCommands) ∧
    strContains help_command.body "echo" = true ∧
    strContains (start_command "Alice").body "echo" = true := by
  have hmem : "echo" ∈ registeredCommands := by decide
  have h := help_mentions_all_start_mentions_rest "Alice" "echo" hmem
  exact ⟨hmem, h.1, h.2 (by decide)⟩

/-- C2: with non-empty args, `echo` replies with the args joined by one
space behind the echo indicator; with empty args it replies with the usage
hint, which is not an echo of empty text. -/
theorem echo_command_spec (args : List String) (h : args ≠ []) :
    (echo_command args).body = "🔄 You said: " ++ String.intercalate " " args ∧
    strContains (echo_command ["Hello", "World"]).body "Hello World" = true ∧
    (echo_command []).body =
      "Please provide a message to echo!\n\nExample: /echo Hello World" ∧
    (echo_command []).body ≠ "🔄 You said: " := by
  refine ⟨?_, by decide, by decide, by decide⟩
  have hne : args.isEmpty = false := by
    cases args with
    | nil => exact absurd rfl h
    | cons a as => rfl
  simp [echo_command, hne]

theorem echo_command_spec_witness :
    (echo_command ["Hello", "World"]).body = "🔄 You said: Hello World" := by
  have h := (echo_command_spec ["Hello", "World"] (by decide)).1
  rw [h]
  decide

/-- C3: on any text whose lowercasing contains both "hello" and "bye",
the classifier returns the rule-1 greeting, never the farewell
(first-match semantics of the if/elif chain). -/
theorem rule_order_hello_beats_bye (msg name : String)
    (h1 : strContains (pyLower msg) "hello" = true)
    (_h2 : strContains (pyLower msg) "bye" = true) :
    handle_message msg name =
      ⟨"Hello " ++ name ++ "! 👋 How can I help you today?", .plain⟩ ∧
    (handle_message msg name).body ≠ "Goodbye! Come back soon! 👋" := by
  have hb : handle_message msg name =
      ⟨"Hello " ++ name ++ "! 👋 How can I help you today?", .plain⟩ := by
    unfold handle_message
    rw [h1]
    simp
  refine ⟨hb, ?_⟩
  rw [hb]
  show "Hello " ++ name ++ "! 👋 How can I help you today?" ≠
    "Goodbye! Come back soon! 👋"
  intro heq
  have hA : strContains
      ("Hello " ++ name ++ "! 👋 How can I help you today?") "Hello" = true := by
    apply strContains_append_left
    apply strContains_append_left
    decide
  rw [heq] at hA
  exact absurd hA (by decide)

theorem rule_order_hello_beats_bye_witness :
    handle_message "hello, gotta go bye" "Bob" =
      ⟨"Hello Bob! 👋 How can I help you today?", .plain⟩ := by
  have h := (rule_order_hello_beats_bye "hello, gotta go bye" "Bob"
    (by decide) (by decide)).1
  rw [h]
  decide

/-- C4: modelled from the spec — one dispatch cycle always returns the loop
to `Idle`, whatever the event and whatever the handler does; and whenever
the selected handler fails — the Text Classifier on a non-command event,
or the Command Handler of a registered command — the failure is recorded,
no response is sent, and nothing propagates. -/
theorem dispatch_cycle_isolates_failures (e : InboundEvent)
    (rh : InboundEvent → Except String OutboundResponse) :
    (runCycle e rh).1 = LoopState.Idle ∧
    (∀ msg, rh e = .error msg →
      (e.is_command = false →
        (runCycle e rh).2.1 = none ∧ (runCycle e rh).2.2 = some msg) ∧
      (∀ n, e.is_command = true → e.command_name = some n →
        n ∈ registeredCommands →
        (runCycle e rh).2.1 = none ∧ (runCycle e rh).2.2 = some msg)) := by
  constructor
  · unfold runCycle
    cases hc : e.is_command with
    | false =>
      cases hr : rh e with
      | ok r => simp [hc, hr]
      | error m => simp [hc, hr]
    | true =>
      cases hn : e.command_name with
      | none => simp [hc, hn]
      | some n =>
        cases hf : commandHandlers.find? (fun p => p.1 == n) with
        | none => simp [hc, hn, hf]
        | some p =>
          cases hr : rh e with
          | ok r => simp [hc, hn, hf, hr]
          | error m => simp [hc, hn, hf, hr]
  · intro msg herr
    constructor
    · intro hcmd
      unfold runCycle
      simp [hcmd, herr]
    · intro n hc hn hmem
      have hfind : ∃ p, commandHandlers.find? (fun q => q.1 == n) = some p := by
        simp only [registeredCommands, commandHandlers, List.map_cons,
          List.map_nil, List.mem_cons, List.not_mem_nil, or_false] at hmem
        rcases hmem with rfl | rfl | rfl | rfl <;> exact ⟨_, rfl⟩
      obtain ⟨p, hp⟩ := hfind
      unfold runCycle
      simp [hc, hn, hp, herr]

theorem dispatch_cycle_isolates_failures_witness :
    (runCycle ⟨1, "Ann", "/echo x", true, some "echo", ["x"]⟩
      (fun _ => Except.error "boom")).1 = LoopState.Idle ∧
    (runCycle ⟨1, "Ann", "/echo x", true, some "echo", ["x"]⟩
      (fun _ => Except.error "boom")).2.2 = some "boom" ∧
    (runCycle ⟨2, "Ben", "sup", false, none, []⟩
      (fun _ => Except.error "zap")).2.2 = some "zap" := by
  have h1 := dispatch_cycle_isolates_failures
    ⟨1, "Ann", "/echo x", true, some "echo", ["x"]⟩ (fun _ => Except.error "boom")
  have h2 := dispatch_cycle_isolates_failures
    ⟨2, "Ben", "sup", false, none, []⟩ (fun _ => Except.error "zap")
  exact ⟨h1.1, ((h1.2 "boom" rfl).2 "echo" rfl rfl (by decide)).2,
    ((h2.2 "zap" rfl).1 rfl).2⟩

/-- C5: a non-command event with empty `raw_text` is still routed to the
classifier, which falls through to the default rule (first-match search
lands on the catch-all) and produces the echo-plus-hint reply; it never
fails on empty input since it is a total function. -/
theorem empty_text_routed_to_default (e : InboundEvent)
    (hcmd : e.is_command = false) (htext : e.raw_text = "") :
    dispatch e = some (handle_message "" e.sender_display_name) ∧
    handle_message "" e.sender_display_name =
      ⟨defaultResp e.sender_display_name "", .plain⟩ ∧
    classifierRules.find? (fun p => p.1 (pyLower "")) =
      some (defaultPred, defaultResp) := by
  refine ⟨?_, ?_, ?_⟩
  · simp [dispatch, hcmd, htext]
  · rfl
  · rfl

theorem empty_text_routed_to_default_witness :
    dispatch ⟨7, "Dana", "", false, none, []⟩ =
      some (handle_message "" "Dana") ∧
    handle_message "" "Dana" = ⟨defaultResp "Dana" "", .plain⟩ := by
  have h := empty_text_routed_to_default ⟨7, "Dana", "", false, none, []⟩ rfl rfl
  exact ⟨h.1, h.2.1⟩

/-- C6: matching is case-insensitive ("Hi there!" hits rule 1 via the
lowercasing, not the default), and when no rule matches the default reply
embeds the original `raw_text` with its casing intact. -/
theorem case_insensitive_match_preserves_casing (msg name : String)
    (h1 : strContains (pyLower msg) "hello" = false)
    (h2 : strContains (pyLower msg) "hi" = false)
    (h3 : strContains (pyLower msg) "how are you" = false)
    (h4 : strContains (pyLower msg) "bye" = false) :
    handle_message "Hi there!" name =
      ⟨"Hello " ++ name ++ "! 👋 How can I help you today?", .plain⟩ ∧
    (handle_message msg name).body =
      "You said: " ++ msg ++ "\n\nTry using /help to see what I can do!" := by
  constructor
  · unfold handle_message
    rw [show strContains (pyLower "Hi there!") "hi" = true from by decide,
        show strContains (pyLower "Hi there!") "hello" = false from by decide]
    simp
  · unfold handle_message
    rw [h1, h2, h3, h4]
    simp

theorem case_insensitive_match_preserves_casing_witness :
    (handle_message "XYZZY 42" "Bob").body =
      "You said: XYZZY 42\n\nTry using /help to see what I can do!" ∧
    handle_message "Hi there!" "Bob" =
      ⟨"Hello Bob! 👋 How can I help you today?", .plain⟩ := by
  have h := case_insensitive_match_preserves_casing "XYZZY 42" "Bob"
    (by decide) (by decide) (by decide) (by decide)
  constructor
  · rw [h.2]
    decide
  · rw [h.1]
    decide

/-- C7: a command event whose name is not registered is silently dropped:
the router finds no handler, invokes none, and sends no response; the
dispatch function is total, so the loop does not crash. -/
theorem unregistered_command_dropped (e : InboundEvent) (n : String)
    (hc : e.is_command = true) (hn : e.command_name = some n)
    (hnm : n ∉ registeredCommands) :
    dispatch e = none := by
  have hfind : commandHandlers.find? (fun p => p.1 == n) = none := by
    cases hf : commandHandlers.find? (fun p => p.1 == n) with
    | none => rfl
    | some p =>
      exfalso
      have hp := List.find?_some hf
      have hmem := List.mem_of_find?_eq_some hf
      have hpn : p.1 = n := by simpa [beq_iff_eq] using hp
      apply hnm
      unfold registeredCommands
      rw [← hpn]
      exact List.mem_map_of_mem _ hmem
  simp [dispatch, hc, hn, hfind]

theorem unregistered_command_dropped_witness :
    dispatch ⟨1, "Ann", "/frobnicate", true, some "frobnicate", []⟩ = none :=
  unregistered_command_dropped _ "frobnicate" rfl rfl (by decide)

/-- C8: with the credential absent the startup check exits with code 1
(non-zero) and the dispatch loop never starts; the check happens before
any dispatching. -/
theorem missing_token_exits_before_loop :
    checkBotToken none = StartupResult.exited 1 ∧ (1 : Nat) ≠ 0 ∧
    dispatchLoopStarts none = false := by
  decide

/-- C9: the classifier is total and first-match deterministic: for every
text there is exactly one selected rule — the first whose predicate holds
(the catch-all guarantees one exists) — and `handle_message` returns
precisely that rule's template output, as a plain-format reply. -/
theorem classifier_total_first_match (msg name : String) :
    ∃ r, classifierRules.find? (fun p => p.1 (pyLower msg)) = some r ∧
      handle_message msg name = ⟨r.2 name msg, FormatHint.plain⟩ := by
  by_cases h1 : (strContains (pyLower msg) "hello" ||
      strContains (pyLower msg) "hi") = true
  · refine ⟨(rule1Pred, rule1Resp), ?_, ?_⟩
    · simp [classifierRules, List.find?, rule1Pred, h1]
    · simp [handle_message, rule1Resp, h1]
  · have h1f : (strContains (pyLower msg) "hello" ||
        strContains (pyLower msg) "hi") = false := by simpa using h1
    by_cases h2 : strContains (pyLower msg) "how are you" = true
    · refine ⟨(rule2Pred, rule2Resp), ?_, ?_⟩
      · simp [classifierRules, List.find?, rule1Pred, rule2Pred, h1f, h2]
      · simp [handle_message, rule2Resp, h1f, h2]
    · have h2f : strContains (pyLower msg) "how are you" = false := by
        simpa using h2
      by_cases h3 : strContains (pyLower msg) "bye" = true
      · refine ⟨(rule3Pred, rule3Resp), ?_, ?_⟩
        · simp [classifierRules, List.find?, rule1Pred, rule2Pred, rule3Pred,
            h1f, h2f, h3]
        · simp [handle_message, rule3Resp, h1f, h2f, h3]
      · have h3f : strContains (pyLower msg) "bye" = false := by simpa using h3
        refine ⟨(defaultPred, defaultResp), ?_, ?_⟩
        · simp [classifierRules, List.find?, rule1Pred, rule2Pred, rule3Pred,
            defaultPred, h1f, h2f, h3f]
        · simp [handle_message, defaultResp, h1f, h2f, h3f]

/-- C10: the classifier's reply is a function of `raw_text` and
`sender_display_name` only — two events agreeing on those two fields get
identical replies, whatever their other fields. -/
theorem classifier_deterministic (e1 e2 : InboundEvent)
    (ht : e1.raw_text = e2.raw_text)
    (hn : e1.sender_display_name = e2.sender_display_name) :
    classifyEvent e1 = classifyEvent e2 := by
  unfold classifyEvent
  rw [ht, hn]

theorem classifier_deterministic_witness :
    classifyEvent ⟨1, "Ann", "hello there", false, none, []⟩ =
    classifyEvent ⟨99, "Ann", "hello there", true, some "echo", ["x"]⟩ :=
  classifier_deterministic _ _ rfl rfl
